import Mathlib

/-!
Verification of the grudge DG discretization core against its
natural-language specification.

The Python sources under `grudge/` are shallowly embedded below:
pure computations become Lean functions over `ℝ`, `ℚ`, `List` and
`Matrix`; Python exceptions become `Except PyError`; Python's dynamic
object arrays become an inductive `Field` type.  Modules of the
repository that are not part of the provided sources (`grudge/dof_desc.py`,
`grudge/op.py`, the execution mappers) are modelled from the spec, and
each such definition is marked `Modelled from the spec:` in its doc
comment.
-/

namespace Grudge

/-- The kinds of Python exceptions raised by the embedded code, together
with their message. -/
inductive PyError where
  | notImplementedError (msg : String)
  | valueError (msg : String)
  | typeError (msg : String)
  | assertionError (msg : String)
deriving DecidableEq, Repr

/-! ## Discretization descriptors

`grudge/dof_desc.py` is not among the provided sources; the descriptor
value type is modelled from the spec. -/

/-- Modelled from the spec: the domain part of a discretization
descriptor: "domain: volume | boundary-tag | interior-faces |
all-faces" (spec section 6).  Missing source: `grudge/dof_desc.py`. -/
inductive DomainTag where
  | volume
  | boundary (tag : String)
  | interiorFaces
  | allFaces
deriving DecidableEq, Repr

/-- Modelled from the spec: the discretization-tag part of a descriptor:
"discretization-tag: base | named-quadrature-tag | none" (spec
section 6).  Missing source: `grudge/dof_desc.py`. -/
inductive DiscretizationTag where
  | base
  | quadrature (name : String)
  | none
deriving DecidableEq, Repr

/-- Modelled from the spec: a discretization descriptor is a value type
made of a domain tag and a discretization tag; "two descriptors are
equal iff domain and tag both match exactly" (spec section 6), which the
derived structural equality realizes.  Missing source:
`grudge/dof_desc.py`. -/
structure DOFDesc where
  domainTag : DomainTag
  discrTag : DiscretizationTag
deriving DecidableEq, Repr

/-- Modelled from the spec: the base volume descriptor `DD_VOLUME`
(referenced by `grudge/dt_utils.py` and `grudge/sbp_op.py`; defined in
the missing `grudge/dof_desc.py`). -/
def DD_VOLUME : DOFDesc := ⟨DomainTag.volume, DiscretizationTag.base⟩

/-- Modelled from the spec: a descriptor "is a trace" when its domain is
a boundary/face domain rather than the volume (spec sections 3 and 6;
used by `assert dd.is_trace()` in `grudge/symbolic/primitives.py`).
Missing source: `grudge/dof_desc.py`. -/
def DOFDesc.isTrace (dd : DOFDesc) : Bool :=
  match dd.domainTag with
  | DomainTag.volume => false
  | _ => true

/-- A value convertible to a `DOFDesc`: either a descriptor already, or
a shorthand string / boundary tag, mirroring the inputs accepted by
`as_dofdesc` at the `project` call sites ("vol", "all_faces", boundary
tags). -/
inductive DDArg where
  | dd (d : DOFDesc)
  | str (s : String)
  | btag (s : String)
deriving DecidableEq, Repr

/-- Modelled from the spec: `as_dofdesc` converts a value to a
descriptor; a descriptor passes through unchanged, the shorthand
strings name the corresponding domains with the base discretization
tag (spec sections 3 and 6).  Missing source: `grudge/dof_desc.py`. -/
def as_dofdesc : DDArg → DOFDesc
  | DDArg.dd d => d
  | DDArg.str s =>
      if s = "vol" then ⟨DomainTag.volume, DiscretizationTag.base⟩
      else if s = "all_faces" then ⟨DomainTag.allFaces, DiscretizationTag.base⟩
      else if s = "int_faces" then ⟨DomainTag.interiorFaces, DiscretizationTag.base⟩
      else ⟨DomainTag.boundary s, DiscretizationTag.base⟩
  | DDArg.btag s => ⟨DomainTag.boundary s, DiscretizationTag.base⟩

/-! ## Fields and projection (`grudge/projection.py`) -/

/-- A field value passed to `project`: a per-group DOF array, a plain
number (Python `Number` scalar), or an object array of fields
(`numpy.ndarray` with `dtype=object`), which `project` recurses over. -/
inductive Field where
  | dofArray (data : List (List ℝ))
  | num (x : ℝ)
  | array (elts : List Field)

/-- `project` from `grudge/projection.py`: convert both descriptors with
`as_dofdesc`; if they are equal return the input unchanged; recurse
over object arrays; pass numbers through; otherwise apply the
connection obtained from `dcoll.connection_from_dds`.  The connection
machinery of the collection is passed in as the function `conn`. -/
def project (conn : DOFDesc → DOFDesc → Field → Except PyError Field)
    (src tgt : DDArg) (vec : Field) : Except PyError Field :=
  let s := as_dofdesc src
  let t := as_dofdesc tgt
  if s = t then
    Except.ok vec
  else
    match vec with
    | Field.array elts =>
        (elts.attach.mapM (fun e => project conn src tgt e.1)).map Field.array
    | Field.num x => Except.ok (Field.num x)
    | Field.dofArray d => conn s t (Field.dofArray d)
termination_by sizeOf vec
decreasing_by
  have h := List.sizeOf_lt_of_mem e.2
  simp only [Field.array.sizeOf_spec]
  omega

/-! ## Burgers operator (`grudge/models/burgers.py`) -/

/-- Python's `str.lower()`, as applied to the flux-type strings
(character-wise lowercasing). -/
def pyLower (s : String) : String := ⟨s.data.map Char.toLower⟩

/-- Per-node value of the numerical flux `burgers_numerical_flux`
(`grudge/models/burgers.py`): the trace pair is represented by its
interior/exterior values `uInt`/`uExt` at one face node, `normal` is
the (1D) face normal component there and `maxWavespeed` the projected
maximum characteristic velocity.  `central = (0.5*u_tpair**2).avg *
normal` and `u_tpair.diff = uExt - uInt`.  The flux-type string is
lower-cased before dispatch; unknown values raise
`NotImplementedError`. -/
noncomputable def burgers_numerical_flux (num_flux_type : String)
    (uInt uExt normal maxWavespeed : ℝ) : Except PyError ℝ :=
  let t := pyLower num_flux_type
  let central := ((0.5 * uInt ^ 2 + 0.5 * uExt ^ 2) / 2) * normal
  if t = "central" then Except.ok central
  else if t = "lf" then Except.ok (central - 0.5 * maxWavespeed * (uExt - uInt))
  else Except.error (PyError.notImplementedError
    ("flux '" ++ t ++ "' is not implemented"))

/-- The state constructed by `InviscidBurgers.__init__`. -/
structure InviscidBurgers where
  dim : ℕ
  flux_type : String
deriving DecidableEq, Repr

/-- The class attribute `InviscidBurgers.flux_types`. -/
def InviscidBurgers.flux_types : List String := ["central", "lf"]

/-- `InviscidBurgers.__init__` (`grudge/models/burgers.py`): first the
flux-type check (`flux_type not in self.flux_types` raises
`NotImplementedError`), then the dimension check (`dcoll.dim != 1`
raises `NotImplementedError`); only then is the state constructed. -/
def InviscidBurgers.init (dim : ℕ) (flux_type : String) :
    Except PyError InviscidBurgers :=
  if flux_type ∉ InviscidBurgers.flux_types then
    Except.error (PyError.notImplementedError
      ("unknown flux type: '" ++ flux_type ++ "'"))
  else if dim ≠ 1 then
    Except.error (PyError.notImplementedError
      ("Burgers operator for dim = " ++ toString dim ++ " not implemented"))
  else
    Except.ok ⟨dim, flux_type⟩

/-! ## Wave operator flux (`grudge/models/wave.py`) -/

/-- Per-node value of `WeakWaveOperator.flux`
(`grudge/models/wave.py`), for ambient dimension `d`: the trace pair
`w = (u, v)` is represented by interior/exterior values at one face
node, `normal` is the unit normal there and `c`/`sign` the operator
fields.  `central_flux_weak = -c*(v.avg·n, u.avg*n)`; "upwind" adds the
jump terms; any other flux type raises `ValueError` (not
`NotImplementedError`). -/
noncomputable def WeakWaveOperator.flux (flux_type : String) (c sign : ℝ) {d : ℕ}
    (uInt uExt : ℝ) (vInt vExt normal : Fin d → ℝ) :
    Except PyError (ℝ × (Fin d → ℝ)) :=
  let uAvg := (uInt + uExt) / 2
  let vAvg := fun i => (vInt i + vExt i) / 2
  let central : ℝ × (Fin d → ℝ) :=
    (-c * (Finset.univ.sum fun i => vAvg i * normal i),
     fun i => -c * (uAvg * normal i))
  if flux_type = "central" then Except.ok central
  else if flux_type = "upwind" then
    Except.ok
      (central.1 - c * sign * (0.5 * (uExt - uInt)),
       fun i => central.2 i - c * sign *
         (0.5 * (normal i * Finset.univ.sum fun j => normal j * (vExt j - vInt j))))
  else Except.error (PyError.valueError
    ("invalid flux type '" ++ flux_type ++ "'"))

/-! ## SBP operators (`grudge/sbp_op.py`): quadrature interpolation -/

/-- `modepy.vandermonde`: the generalized Vandermonde matrix of a
basis (one column per basis function) evaluated at a node set (one row
per node); node coordinates have the abstract type `α`. -/
def vandermonde {m n : ℕ} {α : Type} (basis : Fin n → α → ℝ)
    (nodes : Fin m → α) : Matrix (Fin m) (Fin n) ℝ :=
  Matrix.of fun i j => basis j (nodes i)

/-- `volume_quadrature_interpolation_matrix` (`grudge/sbp_op.py`):
`vandermonde(basis, quad_nodes) @ inv(vandermonde(basis,
base_nodes))`. -/
noncomputable def volume_quadrature_interpolation_matrix
    {m n : ℕ} {α : Type} (basis : Fin n → α → ℝ)
    (baseNodes : Fin n → α) (quadNodes : Fin m → α) :
    Matrix (Fin m) (Fin n) ℝ :=
  vandermonde basis quadNodes * (vandermonde basis baseNodes)⁻¹

/-- The surface node set of `surface_quadrature_interpolation_matrix`:
`np.concatenate([face.map_to_volume(face_quadrature.nodes) for face in
faces], axis=1)` — the one face quadrature rule mapped to each
reference-cell face in face order, so node `k` belongs to face
`k / nq` and is quadrature node `k % nq` of that face's rule. -/
def concatFaceNodes {α β : Type} {nfaces nq : ℕ}
    (mapToVolume : Fin nfaces → β → α) (faceQuadNodes : Fin nq → β)
    (k : Fin (nfaces * nq)) : α :=
  mapToVolume ⟨k.1 / nq, Nat.div_lt_of_lt_mul (Nat.mul_comm nfaces nq ▸ k.isLt)⟩
    (faceQuadNodes ⟨k.1 % nq, by
      rcases Nat.eq_zero_or_pos nq with h0 | h0
      · subst h0
        exact absurd k.isLt (by simp)
      · exact Nat.mod_lt _ h0⟩)

/-- `surface_quadrature_interpolation_matrix` (`grudge/sbp_op.py`):
the Vandermonde matrix of the volume basis at the concatenated
face-mapped quadrature nodes times the inverse Vandermonde matrix at
the base element nodes. -/
noncomputable def surface_quadrature_interpolation_matrix
    {n nfaces nq : ℕ} {α β : Type} (basis : Fin n → α → ℝ)
    (baseNodes : Fin n → α)
    (mapToVolume : Fin nfaces → β → α) (faceQuadNodes : Fin nq → β) :
    Matrix (Fin (nfaces * nq)) (Fin n) ℝ :=
  vandermonde basis (concatFaceNodes mapToVolume faceQuadNodes)
    * (vandermonde basis baseNodes)⁻¹

/-- The row index of face `f`'s `i`-th quadrature node in the
concatenated surface node set. -/
def blockIdx {a b : ℕ} (f : Fin a) (i : Fin b) : Fin (a * b) :=
  ⟨f.1 * b + i.1, by
    calc f.1 * b + i.1 < f.1 * b + b := Nat.add_lt_add_left i.isLt _
      _ = (f.1 + 1) * b := by ring
      _ ≤ a * b := Nat.mul_le_mul_right b f.isLt⟩

/-- Concatenated surface node `(f, i)` is the `i`-th quadrature node
mapped to face `f`. -/
theorem concatFaceNodes_blockIdx {α β : Type} {nfaces nq : ℕ}
    (mapToVolume : Fin nfaces → β → α) (faceQuadNodes : Fin nq → β)
    (f : Fin nfaces) (i : Fin nq) :
    concatFaceNodes mapToVolume faceQuadNodes (blockIdx f i)
      = mapToVolume f (faceQuadNodes i) := by
  have hq : 0 < nq := i.pos
  have hdiv : (f.1 * nq + i.1) / nq = f.1 := by
    rw [Nat.add_comm, Nat.mul_comm, Nat.add_mul_div_left _ _ hq,
      Nat.div_eq_of_lt i.isLt, Nat.zero_add]
  have hmod : (f.1 * nq + i.1) % nq = i.1 := by
    rw [Nat.add_comm, Nat.mul_comm, Nat.add_mul_mod_self_left,
      Nat.mod_eq_of_lt i.isLt]
  unfold concatFaceNodes blockIdx
  congr 1
  · exact Fin.ext hdiv
  · exact congrArg faceQuadNodes (Fin.ext hmod)

/-! ## SBP operators (`grudge/sbp_op.py`): inverse mass -/

/-- `_apply_inverse_sbp_mass_operator` (`grudge/sbp_op.py`) on a plain
DOF array `vec` (one entry per group).  If `dd_out != dd_in` a
`ValueError` is raised before any numeric work.  Otherwise the code
builds one array per entry of `zip(discr.groups, inv_area_elements,
vec)`; evaluating the first entry calls
`quadrature_based_inverse_mass_matrix(actx, element_group=grp)`, but
that function's signature is `(actx, base_element_group,
quad_element_group)`, so the call raises `TypeError`; only an empty
zip (no groups or empty `vec`) escapes it. -/
def _apply_inverse_sbp_mass_operator (dd_out dd_in : DOFDesc)
    (ngroups : ℕ) (vec : List (List ℝ)) :
    Except PyError (List (List ℝ)) :=
  if dd_out ≠ dd_in then
    Except.error (PyError.valueError
      ("Cannot compute inverse of a mass matrix mapping "
        ++ "between different element groups; inverse is not "
        ++ "guaranteed to be well-defined"))
  else if ngroups = 0 ∨ vec.isEmpty then Except.ok []
  else
    Except.error (PyError.typeError
      ("quadrature_based_inverse_mass_matrix() got an unexpected "
        ++ "keyword argument 'element_group'"))

/-- `inverse_sbp_mass` (`grudge/sbp_op.py`): applies the inverse SBP
mass operator with `dd_out = dd_in = DD_VOLUME`. -/
def inverse_sbp_mass (ngroups : ℕ) (vec : List (List ℝ)) :
    Except PyError (List (List ℝ)) :=
  _apply_inverse_sbp_mass_operator DD_VOLUME DD_VOLUME ngroups vec

/-! ## Timestep utilities (`grudge/dt_utils.py`) -/

/-- The data of one element group of the volume discretization that
`grudge/dt_utils.py` reads: the polynomial order and reference unit
nodes (`grp.order`, `grp.unit_nodes`, transposed by the code into a
list of per-node coordinate vectors), the reference-cell vertex
coordinates (`grp.mesh_el_group.vertex_unit_coordinates()`), whether
the group is a `SimplexElementGroupBase`, and the per-element results
of the spec's elementwise integrals of the constant-one field:
`cellVolumeIntegrals` over the element itself and `faceAreaIntegrals`
over each of its faces.  The integral values are data here because
`op.elementwise_integral` lives in `grudge/op.py` /
`grudge/reductions.py`, which are not among the provided sources;
modelled from the spec (section 4.5: elementwise reductions / mass of
the one-field give the element measure, constant at each of the
element's nodes). -/
structure ElementGroup where
  order : ℕ
  unitNodes : List (List ℝ)
  vertexUnitCoordinates : List (List ℝ)
  isSimplex : Bool
  cellVolumeIntegrals : List ℝ
  faceAreaIntegrals : List (List ℝ)

/-- `np.linalg.norm(a - b)`: the Euclidean distance of two coordinate
vectors. -/
noncomputable def euclideanDist (a b : List ℝ) : ℝ :=
  Real.sqrt ((List.zipWith (fun x y => (x - y) ^ 2) a b).sum)

/-- All pairwise distances `norm(nodes[i] - nodes[j])` for `i != j`,
the generator enumerated by `dt_non_geometric_factors`. -/
noncomputable def pairwiseDistances (nodes : List (List ℝ)) : List ℝ :=
  (List.range nodes.length).flatMap fun i =>
    (List.range nodes.length).filterMap fun j =>
      if i ≠ j then some (euclideanDist (nodes.getD i []) (nodes.getD j []))
      else none

/-- Python's `min` over a list: `none` on the empty list (where Python
raises `ValueError`). -/
def listMin : List ℝ → Option ℝ
  | [] => Option.none
  | x :: xs => Option.some (xs.foldl min x)

/-- The per-group body of `dt_non_geometric_factors`
(`grudge/dt_utils.py`): for order-0 groups (one node at the centroid)
the distance from that node to the first reference vertex; otherwise
the minimum pairwise distance between distinct unit nodes. -/
noncomputable def dt_non_geometric_factor (grp : ElementGroup) :
    Except PyError ℝ :=
  if grp.order = 0 then
    if grp.unitNodes.length = 1 then
      Except.ok (euclideanDist (grp.unitNodes.headD [])
        (grp.vertexUnitCoordinates.headD []))
    else Except.error (PyError.assertionError "nnodes == 1")
  else
    match listMin (pairwiseDistances grp.unitNodes) with
    | Option.some m => Except.ok m
    | Option.none => Except.error
        (PyError.valueError "min() arg is an empty sequence")

/-- `dt_non_geometric_factors` (`grudge/dt_utils.py`): one minimum
reference node distance per element group. -/
noncomputable def dt_non_geometric_factors (groups : List ElementGroup) :
    Except PyError (List ℝ) :=
  groups.mapM dt_non_geometric_factor

/-- `dt_geometric_factors` (`grudge/dt_utils.py`), producing one value
per group, element and node: first the simplex check
(`NotImplementedError` for any non-simplex group); `cell_vols` is the
absolute elementwise integral of one, constant at each node; in
dimension 1 `cell_vols` itself is returned; otherwise each element's
total surface area is the sum of its per-face absolute area integrals
(the einsum over faces and face nodes divided by the face node count),
and the result is `(1/surface_area) * cell_vol * dim` per node. -/
noncomputable def dt_geometric_factors (dim : ℕ) (groups : List ElementGroup) :
    Except PyError (List (List (List ℝ))) :=
  if groups.any (fun g => !g.isSimplex) then
    Except.error (PyError.notImplementedError
      "Geometric factors are only implemented for simplex element groups")
  else
    let cellVols := groups.map fun g =>
      g.cellVolumeIntegrals.map fun v => List.replicate g.unitNodes.length |v|
    if dim = 1 then Except.ok cellVols
    else
      Except.ok (groups.map fun g =>
        (g.cellVolumeIntegrals.zip g.faceAreaIntegrals).map fun vf =>
          let sae := (vf.2.map fun f => |f|).sum
          List.replicate g.unitNodes.length ((1 / sae) * |vf.1| * (dim : ℝ)))

/-- `characteristic_lengthscales` (`grudge/dt_utils.py`): each group's
array of geometric factors scaled by that group's non-geometric
factor. -/
noncomputable def characteristic_lengthscales (dim : ℕ)
    (groups : List ElementGroup) : Except PyError (List (List (List ℝ))) := do
  let cngs ← dt_non_geometric_factors groups
  let geo ← dt_geometric_factors dim groups
  return (cngs.zip geo).map fun cg => cg.2.map fun el => el.map fun x => cg.1 * x

/-- The geometric factor asserted by the claim (and by the docstring of
`dt_geometric_factors`) for every topological dimension `d ≥ 1`: the
inradius `r_D = d * V / (sum of the areas of the element's faces)` of
Shewchuk's formula, per element and node. -/
noncomputable def inradius_formula (dim : ℕ) (grp : ElementGroup) :
    List (List ℝ) :=
  (grp.cellVolumeIntegrals.zip grp.faceAreaIntegrals).map fun vf =>
    List.replicate grp.unitNodes.length
      ((dim : ℝ) * |vf.1| / ((vf.2.map fun f => |f|).sum))

/-- A concrete order-1 one-dimensional simplex group: one segment of
length 2 with reference nodes −1 and 1 and two point faces of unit
measure. -/
noncomputable def oneDGroupEx : ElementGroup :=
  { order := 1
    unitNodes := [[-1], [1]]
    vertexUnitCoordinates := [[-1], [1]]
    isSimplex := true
    cellVolumeIntegrals := [2]
    faceAreaIntegrals := [[1, 1]] }

/-- A concrete non-simplex element group. -/
noncomputable def nonSimplexGroupEx : ElementGroup :=
  { order := 1
    unitNodes := [[-1, -1], [1, -1], [1, 1], [-1, 1]]
    vertexUnitCoordinates := [[-1, -1], [1, -1], [1, 1], [-1, 1]]
    isSimplex := false
    cellVolumeIntegrals := [4]
    faceAreaIntegrals := [[2, 2, 2, 2]] }

/-! ## Symbolic geometry (`grudge/symbolic/primitives.py`) -/

/-- Modelled from the spec: the numeric realization of
`_SignedFaceOnes` (its execution mapper `map_signed_face_ones` is not
among the provided sources).  Per the class's in-source docstring and
spec section 4.2 step 5, a DOF's value is +1 if its face number is
even and −1 if it is odd. -/
def signedFaceOnesValue (faceNumber : ℕ) : ℤ :=
  if faceNumber % 2 = 0 then 1 else -1

/-- `_SignedFaceOnes.__init__` (`grudge/symbolic/primitives.py`):
converts `dd` and asserts `dd.is_trace()`. -/
def mk_SignedFaceOnes (dd : DOFDesc) : Except PyError DOFDesc :=
  if dd.isTrace then Except.ok dd
  else Except.error (PyError.assertionError "dd.is_trace()")

/-- The two constructions `parametrization_derivative` can return: the
`_SignedFaceOnes` multivector for 0-dimensional trace domains, or the
product (wedge) of the forward metric derivative multivectors over the
reference axes. -/
inductive ParamDeriv where
  | signedFaceOnes (dd : DOFDesc)
  | wedgeOfForwardMetricDerivatives (ambientDim dim : ℕ) (dd : DOFDesc)
deriving DecidableEq, Repr

/-- `parametrization_derivative` (`grudge/symbolic/primitives.py`): for
`dim == 0` the `_SignedFaceOnes` expression (whose constructor asserts
a trace descriptor), otherwise the product of
`forward_metric_derivative_mv` over `range(dim)`. -/
def parametrization_derivative (ambientDim dim : ℕ) (dd : DOFDesc) :
    Except PyError ParamDeriv :=
  if dim = 0 then (mk_SignedFaceOnes dd).map ParamDeriv.signedFaceOnes
  else Except.ok (ParamDeriv.wedgeOfForwardMetricDerivatives ambientDim dim dd)

/-- The symbolic expressions `inverse_first_fundamental_form` can
return: the square-map branch `inv_mder @ inv_mder.T`, or the
closed-form 1×1 / 2×2 inverses of the first fundamental form. -/
inductive InvFundamentalForm where
  | fromInverseMetricDerivative (ambientDim dim : ℕ)
  | closedForm1D
  | closedForm2D
deriving DecidableEq, Repr

/-- The symbolic second fundamental form: the hardcoded index patterns
exist only for surface dimensions 1 and 2. -/
inductive SecondFundamentalForm where
  | oneD
  | twoD
deriving DecidableEq, Repr

/-- The symbolic shape operator `-form2.dot(inv_form1)`. -/
inductive ShapeOperatorExpr where
  | negDot (f2 : SecondFundamentalForm) (inv : InvFundamentalForm)
deriving DecidableEq, Repr

/-- What `summed_curvature` returns: the Python float `0.0` on its
short-circuit branches, or the trace of the shape operator. -/
inductive CurvatureValue where
  | floatZero
  | traceOf (op : ShapeOperatorExpr)
deriving DecidableEq, Repr

/-- `inverse_first_fundamental_form` (`grudge/symbolic/primitives.py`):
for square (volume-filling) maps `inv_mder @ inv_mder.T`; for embedded
surfaces the closed forms for dimensions 1 and 2; otherwise
`ValueError("%dD surfaces not supported")`. -/
def inverse_first_fundamental_form (ambientDim dim : ℕ) :
    Except PyError InvFundamentalForm :=
  if ambientDim = dim then
    Except.ok (InvFundamentalForm.fromInverseMetricDerivative ambientDim dim)
  else if dim = 1 then Except.ok InvFundamentalForm.closedForm1D
  else if dim = 2 then Except.ok InvFundamentalForm.closedForm2D
  else Except.error (PyError.valueError
    (toString dim ++ "D surfaces not supported"))

/-- `second_fundamental_form` (`grudge/symbolic/primitives.py`):
hardcoded second-derivative index patterns for surface dimensions 1
and 2, `ValueError("%dD surfaces not supported")` otherwise. -/
def second_fundamental_form (ambientDim dim : ℕ) :
    Except PyError SecondFundamentalForm :=
  if dim = 1 then Except.ok SecondFundamentalForm.oneD
  else if dim = 2 then Except.ok SecondFundamentalForm.twoD
  else Except.error (PyError.valueError
    (toString dim ++ "D surfaces not supported"))

/-- `shape_operator` (`grudge/symbolic/primitives.py`):
`-form2.dot(inv_form1)`; any error of the two forms propagates. -/
def shape_operator (ambientDim dim : ℕ) :
    Except PyError ShapeOperatorExpr := do
  let inv ← inverse_first_fundamental_form ambientDim dim
  let f2 ← second_fundamental_form ambientDim dim
  return ShapeOperatorExpr.negDot f2 inv

/-- `summed_curvature` (`grudge/symbolic/primitives.py`): the float
`0.0` when `ambient_dim == 1` or `ambient_dim == dim`, otherwise the
trace of the shape operator. -/
def summed_curvature (ambientDim dim : ℕ) :
    Except PyError CurvatureValue :=
  if ambientDim = 1 then Except.ok CurvatureValue.floatZero
  else if ambientDim = dim then Except.ok CurvatureValue.floatZero
  else (shape_operator ambientDim dim).map CurvatureValue.traceOf

/-! ## Logarithmic mean (`grudge/models/euler.py`) -/

/-- `log_mean` from `grudge/models/euler.py`: the numerically stable
logarithmic mean of Ismail and Roe.  `f_squared = (x*(x-2y)+y*y) /
(x*(x+2y)+y*y)`; when `f_squared < epsilon` a truncated series is used,
otherwise the exact form `(x-y)/log(x/y)`. -/
noncomputable def log_mean (x y : ℝ) (epsilon : ℝ := 1e-4) : ℝ :=
  let f_squared := (x * (x - 2 * y) + y * y) / (x * (x + 2 * y) + y * y)
  if f_squared < epsilon then
    let f := 1 + 1 / 3 * f_squared + 1 / 5 * f_squared ^ 2 + 1 / 7 * f_squared ^ 3
    (x + y) / (2 * f)
  else
    (x - y) / Real.log (x / y)

end Grudge

/-- C1: if the source and target descriptors agree after `as_dofdesc`
conversion (structural descriptor equality), `project` returns the
field unchanged, for every connection machinery `conn` — in particular
the machinery is never invoked, since the result is the same even for a
connection that always fails. -/
theorem Grudge.project_identity_shortcircuit
    (conn : DOFDesc → DOFDesc → Field → Except PyError Field)
    (src tgt : DDArg) (vec : Field)
    (h : as_dofdesc src = as_dofdesc tgt) :
    project conn src tgt vec = Except.ok vec := by
  unfold project
  simp [h]

/-- Witness for C1: projecting the scalar field 2 from the string
shorthand "vol" to the volume descriptor returns it unchanged, even
through a connection that always raises. -/
theorem Grudge.project_identity_shortcircuit_witness :
    as_dofdesc (DDArg.str "vol")
      = as_dofdesc (DDArg.dd ⟨DomainTag.volume, DiscretizationTag.base⟩) ∧
    project (fun _ _ _ => Except.error (PyError.valueError "no connection"))
      (DDArg.str "vol") (DDArg.dd ⟨DomainTag.volume, DiscretizationTag.base⟩)
      (Field.num 2) = Except.ok (Field.num 2) :=
  ⟨by decide,
   Grudge.project_identity_shortcircuit
     (fun _ _ _ => Except.error (PyError.valueError "no connection"))
     (DDArg.str "vol") (DDArg.dd ⟨DomainTag.volume, DiscretizationTag.base⟩)
     (Field.num 2) (by decide)⟩

/-- C6 counterexample: `WeakWaveOperator.flux` rejects the unknown flux
type "foo" with a `ValueError`, not with the "not implemented" signal
the claim asserts for all three rejection sites. -/
theorem Grudge.wave_flux_not_notimplemented_counterexample :
    Grudge.WeakWaveOperator.flux "foo" 1 1 (d := 1) 0 0
        (fun _ => 0) (fun _ => 0) (fun _ => 1)
      = Except.error (PyError.valueError "invalid flux type 'foo'") ∧
    ¬ ∃ msg, Grudge.WeakWaveOperator.flux "foo" 1 1 (d := 1) 0 0
        (fun _ => 0) (fun _ => 0) (fun _ => 1)
      = Except.error (PyError.notImplementedError msg) := by
  constructor
  · simp [Grudge.WeakWaveOperator.flux]
  · rintro ⟨msg, hmsg⟩
    simp [Grudge.WeakWaveOperator.flux] at hmsg

/-- C6 amended: every unknown flux-type string is rejected with an
explicit error naming the unsupported value: `burgers_numerical_flux`
and the `InviscidBurgers` constructor raise `NotImplementedError`,
while `WeakWaveOperator.flux` raises `ValueError` (not
`NotImplementedError`). -/
theorem Grudge.flux_type_rejection_amended :
    (∀ (s : String) (uI uE n mw : ℝ),
      Grudge.pyLower s ≠ "central" → Grudge.pyLower s ≠ "lf" →
      Grudge.burgers_numerical_flux s uI uE n mw
        = Except.error (PyError.notImplementedError
            ("flux '" ++ Grudge.pyLower s ++ "' is not implemented"))) ∧
    (∀ (dim : ℕ) (ft : String), ft ∉ Grudge.InviscidBurgers.flux_types →
      Grudge.InviscidBurgers.init dim ft
        = Except.error (PyError.notImplementedError
            ("unknown flux type: '" ++ ft ++ "'"))) ∧
    (∀ (ft : String) (c sign : ℝ) (d : ℕ)
        (uI uE : ℝ) (vI vE n : Fin d → ℝ),
      ft ≠ "central" → ft ≠ "upwind" →
      Grudge.WeakWaveOperator.flux ft c sign uI uE vI vE n
        = Except.error (PyError.valueError
            ("invalid flux type '" ++ ft ++ "'"))) := by
  refine ⟨?_, ?_, ?_⟩
  · intro s uI uE n mw h1 h2
    simp [Grudge.burgers_numerical_flux, h1, h2]
  · intro dim ft hft
    simp [Grudge.InviscidBurgers.init, hft]
  · intro ft c sign d uI uE vI vE n h1 h2
    simp [Grudge.WeakWaveOperator.flux, h1, h2]

/-- Witness for the amended C6: concrete rejections of the flux type
"foo" at all three sites. -/
theorem Grudge.flux_type_rejection_amended_witness :
    Grudge.burgers_numerical_flux "foo" 0 0 1 0
      = Except.error (PyError.notImplementedError
          "flux 'foo' is not implemented") ∧
    Grudge.InviscidBurgers.init 1 "foo"
      = Except.error (PyError.notImplementedError
          "unknown flux type: 'foo'") ∧
    Grudge.WeakWaveOperator.flux "foo" 1 1 (d := 1) 0 0
        (fun _ => 0) (fun _ => 0) (fun _ => 1)
      = Except.error (PyError.valueError "invalid flux type 'foo'") :=
  ⟨by simpa using
     Grudge.flux_type_rejection_amended.1 "foo" 0 0 1 0 (by decide) (by decide),
   Grudge.flux_type_rejection_amended.2.1 1 "foo" (by decide),
   Grudge.flux_type_rejection_amended.2.2 "foo" 1 1 1 0 0
     (fun _ => 0) (fun _ => 0) (fun _ => 1) (by decide) (by decide)⟩

/-- C9: for strictly positive inputs, `log_mean` is symmetric in its
two arguments (both the series branch and the logarithmic branch), and
on the diagonal it returns the input itself. -/
theorem Grudge.log_mean_symm_diag (x y eps : ℝ)
    (hx : 0 < x) (hy : 0 < y) (heps : 0 < eps) :
    Grudge.log_mean x y eps = Grudge.log_mean y x eps ∧
    Grudge.log_mean x x eps = x := by
  constructor
  · have hfs : (x * (x - 2 * y) + y * y) / (x * (x + 2 * y) + y * y)
        = (y * (y - 2 * x) + x * x) / (y * (y + 2 * x) + x * x) := by
      ring_nf
    simp only [Grudge.log_mean]
    rw [hfs]
    split_ifs with h
    · ring_nf
    · rw [Real.log_div hx.ne' hy.ne', Real.log_div hy.ne' hx.ne']
      rw [show y - x = -(x - y) by ring,
          show Real.log y - Real.log x = -(Real.log x - Real.log y) by ring,
          neg_div_neg_eq]
  · have hnum : x * (x - 2 * x) + x * x = 0 := by ring
    simp only [Grudge.log_mean, hnum, zero_div]
    rw [if_pos heps]
    norm_num

/-- Witness for C9: symmetry at (1, 2) and the diagonal at 1, with the
default epsilon. -/
theorem Grudge.log_mean_symm_diag_witness :
    Grudge.log_mean 1 2 1e-4 = Grudge.log_mean 2 1 1e-4 ∧
    Grudge.log_mean 1 1 1e-4 = 1 :=
  Grudge.log_mean_symm_diag 1 2 1e-4 (by norm_num) (by norm_num) (by norm_num)

/-- C10: for every valid flux type, requesting the `InviscidBurgers`
operator in any dimension other than 1 raises `NotImplementedError`
(after the flux-type check) and constructs no operator state. -/
theorem Grudge.inviscid_burgers_one_dimensional (dim : ℕ) (ft : String)
    (hft : ft ∈ Grudge.InviscidBurgers.flux_types) (hdim : dim ≠ 1) :
    Grudge.InviscidBurgers.init dim ft
      = Except.error (PyError.notImplementedError
          ("Burgers operator for dim = " ++ toString dim
            ++ " not implemented")) := by
  simp [Grudge.InviscidBurgers.init, hft, hdim]

/-- C3: the volume quadrature interpolation matrix is the Vandermonde
matrix at the quadrature nodes times the inverse Vandermonde matrix at
the base element nodes, and the surface variant consists of one such
interpolation block per reference-cell face: the rows of face `f` form
exactly the interpolation matrix built from the single face quadrature
rule mapped to face `f`. -/
theorem Grudge.quadrature_interpolation_matrix_structure :
    (∀ {α : Type} {m n : ℕ} (basis : Fin n → α → ℝ)
        (baseNodes : Fin n → α) (quadNodes : Fin m → α),
      Grudge.volume_quadrature_interpolation_matrix basis baseNodes quadNodes
        = Grudge.vandermonde basis quadNodes
            * (Grudge.vandermonde basis baseNodes)⁻¹) ∧
    (∀ {α β : Type} {n nfaces nq : ℕ} (basis : Fin n → α → ℝ)
        (baseNodes : Fin n → α) (mapToVolume : Fin nfaces → β → α)
        (faceQuadNodes : Fin nq → β) (f : Fin nfaces) (i : Fin nq)
        (j : Fin n),
      Grudge.surface_quadrature_interpolation_matrix basis baseNodes
          mapToVolume faceQuadNodes (Grudge.blockIdx f i) j
        = Grudge.volume_quadrature_interpolation_matrix basis baseNodes
            (fun q => mapToVolume f (faceQuadNodes q)) i j) := by
  constructor
  · intro α m n basis baseNodes quadNodes
    rfl
  · intro α β n nfaces nq basis baseNodes mapToVolume faceQuadNodes f i j
    simp only [Grudge.surface_quadrature_interpolation_matrix,
      Grudge.volume_quadrature_interpolation_matrix, Matrix.mul_apply,
      Grudge.vandermonde, Matrix.of_apply, Grudge.concatFaceNodes_blockIdx]

/-- C7: for `dim == 0`, `parametrization_derivative` produces the
`_SignedFaceOnes` expression — the parity-based ±1 convention (+1 on
even-numbered faces, −1 on odd) — instead of the wedge-product
construction; and `_SignedFaceOnes` asserts that its descriptor is a
trace descriptor. -/
theorem Grudge.parametrization_derivative_0d_parity :
    (∀ (ambientDim : ℕ) (dd : DOFDesc), dd.isTrace = true →
      Grudge.parametrization_derivative ambientDim 0 dd
        = Except.ok (ParamDeriv.signedFaceOnes dd)) ∧
    (∀ (ambientDim : ℕ) (dd : DOFDesc), dd.isTrace = false →
      Grudge.parametrization_derivative ambientDim 0 dd
        = Except.error (PyError.assertionError "dd.is_trace()")) ∧
    (∀ faceNumber : ℕ, faceNumber % 2 = 0 →
      Grudge.signedFaceOnesValue faceNumber = 1) ∧
    (∀ faceNumber : ℕ, faceNumber % 2 = 1 →
      Grudge.signedFaceOnesValue faceNumber = -1) := by
  refine ⟨?_, ?_, ?_, ?_⟩
  · intro ambientDim dd h
    simp [Grudge.parametrization_derivative, Grudge.mk_SignedFaceOnes, h,
      Except.map]
  · intro ambientDim dd h
    simp [Grudge.parametrization_derivative, Grudge.mk_SignedFaceOnes, h,
      Except.map]
  · intro faceNumber h
    simp [Grudge.signedFaceOnesValue, h]
  · intro faceNumber h
    simp [Grudge.signedFaceOnesValue, h]

/-- Witness for C7: concrete evaluations — the boundary trace
descriptor takes the signed-ones branch, the volume descriptor is
rejected by the assertion, and faces 0 and 1 get values +1 and −1. -/
theorem Grudge.parametrization_derivative_0d_parity_witness :
    Grudge.parametrization_derivative 1 0
        ⟨DomainTag.boundary "left", DiscretizationTag.base⟩
      = Except.ok (ParamDeriv.signedFaceOnes
          ⟨DomainTag.boundary "left", DiscretizationTag.base⟩) ∧
    Grudge.parametrization_derivative 1 0 Grudge.DD_VOLUME
      = Except.error (PyError.assertionError "dd.is_trace()") ∧
    Grudge.signedFaceOnesValue 0 = 1 ∧
    Grudge.signedFaceOnesValue 1 = -1 :=
  ⟨Grudge.parametrization_derivative_0d_parity.1 1
     ⟨DomainTag.boundary "left", DiscretizationTag.base⟩ rfl,
   Grudge.parametrization_derivative_0d_parity.2.1 1 Grudge.DD_VOLUME rfl,
   Grudge.parametrization_derivative_0d_parity.2.2.1 0 (by decide),
   Grudge.parametrization_derivative_0d_parity.2.2.2 1 (by decide)⟩

/-- C8: `summed_curvature` returns exactly zero for every
volume-filling discretization (`ambient_dim == dim`) and whenever
`ambient_dim == 1`; for embedded surfaces of dimension greater than 2,
both `second_fundamental_form` and `inverse_first_fundamental_form`
raise the explicit `ValueError("%dD surfaces not supported")`. -/
theorem Grudge.summed_curvature_zero_and_unsupported :
    (∀ ambientDim dim : ℕ, ambientDim = dim →
      Grudge.summed_curvature ambientDim dim
        = Except.ok CurvatureValue.floatZero) ∧
    (∀ dim : ℕ, Grudge.summed_curvature 1 dim
        = Except.ok CurvatureValue.floatZero) ∧
    (∀ ambientDim dim : ℕ, 2 < dim → ambientDim ≠ dim →
      Grudge.second_fundamental_form ambientDim dim
        = Except.error (PyError.valueError
            (toString dim ++ "D surfaces not supported")) ∧
      Grudge.inverse_first_fundamental_form ambientDim dim
        = Except.error (PyError.valueError
            (toString dim ++ "D surfaces not supported"))) := by
  refine ⟨?_, ?_, ?_⟩
  · intro ambientDim dim h
    simp [Grudge.summed_curvature, h]
  · intro dim
    simp [Grudge.summed_curvature]
  · intro ambientDim dim h2 hne
    have h1 : dim ≠ 1 := by omega
    have h2' : dim ≠ 2 := by omega
    exact ⟨by simp [Grudge.second_fundamental_form, h1, h2'],
           by simp [Grudge.inverse_first_fundamental_form, hne, h1, h2']⟩

/-- Witness for C8: zero curvature for the volume-filling 3D case and
for ambient dimension 1; the unsupported error for a 3D surface
embedded in 4D space. -/
theorem Grudge.summed_curvature_zero_and_unsupported_witness :
    Grudge.summed_curvature 3 3 = Except.ok CurvatureValue.floatZero ∧
    Grudge.summed_curvature 1 5 = Except.ok CurvatureValue.floatZero ∧
    Grudge.second_fundamental_form 4 3
      = Except.error (PyError.valueError
          (toString (3 : ℕ) ++ "D surfaces not supported")) ∧
    Grudge.inverse_first_fundamental_form 4 3
      = Except.error (PyError.valueError
          (toString (3 : ℕ) ++ "D surfaces not supported")) :=
  ⟨Grudge.summed_curvature_zero_and_unsupported.1 3 3 rfl,
   Grudge.summed_curvature_zero_and_unsupported.2.1 5,
   (Grudge.summed_curvature_zero_and_unsupported.2.2 4 3
     (by norm_num) (by norm_num)).1,
   (Grudge.summed_curvature_zero_and_unsupported.2.2 4 3
     (by norm_num) (by norm_num)).2⟩

/-- C4 (code bug): mismatched descriptors are indeed rejected with
`ValueError` before any numeric work (for every group count and every
field), but when `dd_out == dd_in` the operation does not proceed
either: on any discretization with at least one group and a nonempty
field the group loop raises `TypeError`, because the call
`quadrature_based_inverse_mass_matrix(actx, element_group=grp)` passes
a keyword the function does not accept. -/
theorem Grudge.inverse_sbp_mass_descriptor_check :
    (∀ (dd_out dd_in : DOFDesc) (ngroups : ℕ) (vec : List (List ℝ)),
      dd_out ≠ dd_in →
      Grudge._apply_inverse_sbp_mass_operator dd_out dd_in ngroups vec
        = Except.error (PyError.valueError
            ("Cannot compute inverse of a mass matrix mapping "
              ++ "between different element groups; inverse is not "
              ++ "guaranteed to be well-defined"))) ∧
    Grudge.inverse_sbp_mass 1 [[1]]
      = Except.error (PyError.typeError
          ("quadrature_based_inverse_mass_matrix() got an unexpected "
            ++ "keyword argument 'element_group'")) := by
  constructor
  · intro dd_out dd_in ngroups vec h
    simp [Grudge._apply_inverse_sbp_mass_operator, h]
  · simp [Grudge.inverse_sbp_mass, Grudge._apply_inverse_sbp_mass_operator]

/-- Witness for C4: the all-faces descriptor paired with the volume
descriptor is rejected with the `ValueError`. -/
theorem Grudge.inverse_sbp_mass_descriptor_check_witness :
    Grudge._apply_inverse_sbp_mass_operator
        ⟨DomainTag.allFaces, DiscretizationTag.base⟩ Grudge.DD_VOLUME 1 [[1]]
      = Except.error (PyError.valueError
          ("Cannot compute inverse of a mass matrix mapping "
            ++ "between different element groups; inverse is not "
            ++ "guaranteed to be well-defined")) :=
  Grudge.inverse_sbp_mass_descriptor_check.1
    ⟨DomainTag.allFaces, DiscretizationTag.base⟩ Grudge.DD_VOLUME 1 [[1]]
    (by decide)

/-- C5: whenever any group of the requested volume discretization is
not a simplex group, `dt_geometric_factors` raises
`NotImplementedError` naming the unsupported element shape — for every
dimension and every per-element data, so nothing is computed and no
other formula is silently used. -/
theorem Grudge.dt_geometric_factors_rejects_non_simplex
    (dim : ℕ) (groups : List ElementGroup) (g : ElementGroup)
    (hg : g ∈ groups) (hs : g.isSimplex = false) :
    Grudge.dt_geometric_factors dim groups
      = Except.error (PyError.notImplementedError
          "Geometric factors are only implemented for simplex element groups")
    := by
  have hany : groups.any (fun g => !g.isSimplex) = true :=
    List.any_eq_true.mpr ⟨g, hg, by simp [hs]⟩
  simp [Grudge.dt_geometric_factors, hany]

/-- Witness for C5: a concrete non-simplex (quadrilateral) group is
rejected in dimension 2. -/
theorem Grudge.dt_geometric_factors_rejects_non_simplex_witness :
    Grudge.dt_geometric_factors 2 [Grudge.nonSimplexGroupEx]
      = Except.error (PyError.notImplementedError
          "Geometric factors are only implemented for simplex element groups")
    :=
  Grudge.dt_geometric_factors_rejects_non_simplex 2 [Grudge.nonSimplexGroupEx]
    Grudge.nonSimplexGroupEx (List.mem_singleton.mpr rfl) rfl

/-- C2 (code bug): on a 1D segment group of length 2 with unit point
faces, the code's geometric factor is the cell volume 2 (the dimension-1
short circuit of `dt_geometric_factors`), not the inradius
`d*V/sum(F) = 1` asserted by the claim and by the function's own
docstring, so `characteristic_lengthscales` returns `min_delta_r *
V = 4` at each node rather than `min_delta_r * r_D = 2`. -/
theorem Grudge.characteristic_lengthscales_1d_divergence :
    Grudge.dt_non_geometric_factors [Grudge.oneDGroupEx] = Except.ok [2] ∧
    Grudge.dt_geometric_factors 1 [Grudge.oneDGroupEx]
      = Except.ok [[[2, 2]]] ∧
    Grudge.inradius_formula 1 Grudge.oneDGroupEx = [[1, 1]] ∧
    Grudge.characteristic_lengthscales 1 [Grudge.oneDGroupEx]
      = Except.ok [[[4, 4]]] ∧
    (4 : ℝ) ≠ 2 * 1 := by
  have h4 : Real.sqrt 4 = 2 := by
    rw [show (4 : ℝ) = 2 ^ 2 by norm_num]
    exact Real.sqrt_sq (by norm_num)
  have hd1 : Grudge.euclideanDist [(-1 : ℝ)] [1] = 2 := by
    unfold Grudge.euclideanDist
    simp only [List.zipWith_cons_cons, List.zipWith_nil_right, List.sum_cons,
      List.sum_nil]
    rw [show ((-1 : ℝ) - 1) ^ 2 + 0 = 4 by norm_num]
    exact h4
  have hd2 : Grudge.euclideanDist [(1 : ℝ)] [-1] = 2 := by
    unfold Grudge.euclideanDist
    simp only [List.zipWith_cons_cons, List.zipWith_nil_right, List.sum_cons,
      List.sum_nil]
    rw [show ((1 : ℝ) - -1) ^ 2 + 0 = 4 by norm_num]
    exact h4
  have hpd : Grudge.pairwiseDistances Grudge.oneDGroupEx.unitNodes = [2, 2] := by
    unfold Grudge.pairwiseDistances Grudge.oneDGroupEx
    simp only [List.length_cons, List.length_nil]
    rw [show List.range 2 = [0, 1] by rfl]
    simp [List.filterMap, hd1, hd2]
  have hng : Grudge.dt_non_geometric_factor Grudge.oneDGroupEx = Except.ok 2 := by
    unfold Grudge.dt_non_geometric_factor
    rw [hpd]
    norm_num [Grudge.oneDGroupEx, Grudge.listMin]
  refine ⟨?_, ?_, ?_, ?_, by norm_num⟩
  · unfold Grudge.dt_non_geometric_factors
    rw [List.mapM_cons, hng]
    rfl
  · unfold Grudge.dt_geometric_factors
    norm_num [Grudge.oneDGroupEx, List.replicate]
  · unfold Grudge.inradius_formula
    norm_num [Grudge.oneDGroupEx, List.replicate]
  · unfold Grudge.characteristic_lengthscales
    unfold Grudge.dt_non_geometric_factors
    rw [List.mapM_cons, hng]
    unfold Grudge.dt_geometric_factors
    norm_num [Grudge.oneDGroupEx, List.replicate, List.mapM.loop, bind,
      Except.bind, pure, Except.pure]

/-- Witness for C10: the central-flux Burgers operator is rejected in
dimension 2. -/
theorem Grudge.inviscid_burgers_one_dimensional_witness :
    Grudge.InviscidBurgers.init 2 "central"
      = Except.error (PyError.notImplementedError
          "Burgers operator for dim = 2 not implemented") :=
  Grudge.inviscid_burgers_one_dimensional 2 "central" (by decide) (by decide)
